import Mathlib

/-!
Verification of the ROI-calculator core (src/app.py) against its
natural-language specification.

Modelling choices:
* Python floats are modelled as exact rationals (`ℚ`); every constant in the
  program is an exact decimal, so each arithmetic step of the engine is
  represented exactly.
* The Streamlit session-state `inputs` dict is modelled as an association
  list `List (String × Value)` where a stored value is numeric or a string
  (line 152 of app.py keeps only `int`, `float` and `str` values).
* Python exceptions are modelled with `Except PyErr`; `calculate_results`
  wraps its body in `try ... except (ZeroDivisionError, TypeError)`, so only
  those two exception classes are converted into the fallback dict, while a
  `KeyError` from a missing dict key propagates.
-/

namespace ROICalc

/-- Business constant `AUTOMATED_COST_PER_INVOICE` (app.py line 13). -/
def AUTOMATED_COST_PER_INVOICE : ℚ := 0.20

/-- Business constant `ERROR_RATE_AUTO` (app.py line 14). -/
def ERROR_RATE_AUTO : ℚ := 0.001

/-- Business constant `MIN_ROI_BOOST_FACTOR` (app.py line 15). -/
def MIN_ROI_BOOST_FACTOR : ℚ := 1.1

/-- Business constant `TIME_SAVED_PER_INVOICE_MINUTES` (app.py line 16). -/
def TIME_SAVED_PER_INVOICE_MINUTES : ℚ := 7.073

/-- Business constant `MANUAL_ERROR_RATE_PERCENT` (app.py line 17). -/
def MANUAL_ERROR_RATE_PERCENT : ℚ := 0.4

/-- A value held in the session-state dict: numeric (int/float/bool) or text. -/
inductive Value where
  | num (q : ℚ)
  | str (s : String)
deriving DecidableEq, Repr

/-- The `inputs` dict passed to `calculate_results` (app.py line 152). -/
abbrev Inputs := List (String × Value)

/-- The Python exception classes that can arise in the modelled code. -/
inductive PyErr where
  | keyError
  | typeError
  | zeroDivisionError
deriving DecidableEq, Repr

/-- A Python float that is either finite or the `float('inf')` sentinel. -/
inductive RVal where
  | fin (q : ℚ)
  | inf
deriving DecidableEq, Repr

/-- The result dict returned by `calculate_results` (app.py lines 72-77).
`monthly_savings` and `cumulative_savings` are always finite;
`payback_months` and `roi_percentage` may be the `inf` sentinel. -/
structure CalcResults where
  monthly_savings : ℚ
  cumulative_savings : ℚ
  payback_months : RVal
  roi_percentage : RVal
deriving DecidableEq, Repr

/-- Reading a numeric field of the `inputs` dict.  A missing key raises
`KeyError` at the subscript; a string value raises `TypeError` at its first
arithmetic use, which in `calculate_results` always directly follows the
subscript (each such operation has a float operand, and `str` mixed with a
float raises `TypeError` in Python), so the model surfaces it at the read. -/
def getNum (inputs : Inputs) (name : String) : Except PyErr ℚ :=
  match inputs.lookup name with
  | none => Except.error PyErr.keyError
  | some (Value.num q) => Except.ok q
  | some (Value.str _) => Except.error PyErr.typeError

/-- Python `/`; raises `ZeroDivisionError` on a zero divisor. -/
def pyDiv (a b : ℚ) : Except PyErr ℚ :=
  if b = 0 then Except.error PyErr.zeroDivisionError else Except.ok (a / b)

/-- `labor_savings` (app.py lines 43-47). -/
def labor_savings (vol wage : ℚ) : ℚ :=
  vol * (TIME_SAVED_PER_INVOICE_MINUTES / 60) * wage

/-- `error_savings` (app.py lines 49-53). -/
def error_savings (vol ecost : ℚ) : ℚ :=
  ((MANUAL_ERROR_RATE_PERCENT / 100) - ERROR_RATE_AUTO) * vol * ecost

/-- `auto_cost` (app.py line 55). -/
def auto_cost (vol : ℚ) : ℚ := vol * AUTOMATED_COST_PER_INVOICE

/-- `monthly_savings` after the boost factor (app.py lines 57-58). -/
def monthly_savings (vol wage ecost : ℚ) : ℚ :=
  ((labor_savings vol wage + error_savings vol ecost) - auto_cost vol) *
    MIN_ROI_BOOST_FACTOR

/-- Body of the `try` block of `calculate_results` (app.py lines 42-77).
Fields are read in the order of their first subscript in the source
(volume, wage, error cost, horizon, implementation cost); later re-reads of
`monthly_invoice_volume` return the same value because the dict is not
mutated, so they are not repeated in the model. -/
def calcBody (inputs : Inputs) : Except PyErr CalcResults :=
  match getNum inputs "monthly_invoice_volume" with
  | Except.error e => Except.error e
  | Except.ok vol =>
    match getNum inputs "hourly_wage" with
    | Except.error e => Except.error e
    | Except.ok wage =>
      match getNum inputs "error_cost" with
      | Except.error e => Except.error e
      | Except.ok ecost =>
        match getNum inputs "time_horizon_months" with
        | Except.error e => Except.error e
        | Except.ok horizon =>
          match getNum inputs "one_time_implementation_cost" with
          | Except.error e => Except.error e
          | Except.ok impl =>
            let ms := monthly_savings vol wage ecost
            let cum := ms * horizon
            let net := cum - impl
            match (if 0 < ms then Except.map RVal.fin (pyDiv impl ms)
                   else Except.ok RVal.inf) with
            | Except.error e => Except.error e
            | Except.ok payback =>
              match (if 0 < impl then
                       Except.map (fun q => RVal.fin (q * 100)) (pyDiv net impl)
                     else Except.ok RVal.inf) with
              | Except.error e => Except.error e
              | Except.ok roi =>
                Except.ok { monthly_savings := ms, cumulative_savings := cum,
                            payback_months := payback, roi_percentage := roi }

/-- The fallback dict of the `except` clause (app.py lines 79-82). -/
def fallbackResult : CalcResults :=
  { monthly_savings := 0, cumulative_savings := 0,
    payback_months := RVal.inf, roi_percentage := RVal.fin 0 }

/-- `calculate_results` (app.py lines 41-82): the `try` body with
`except (ZeroDivisionError, TypeError)` mapped to the fallback dict.
A `KeyError` is not in the caught tuple and propagates. -/
def calculate_results (inputs : Inputs) : Except PyErr CalcResults :=
  match calcBody inputs with
  | Except.ok r => Except.ok r
  | Except.error PyErr.typeError => Except.ok fallbackResult
  | Except.error PyErr.zeroDivisionError => Except.ok fallbackResult
  | Except.error PyErr.keyError => Except.error PyErr.keyError

/-- A fully-populated numeric inputs dict, as produced by the sidebar
widgets (app.py lines 133-139, gathered at line 152). -/
def mkInputs (name : String) (vol staff wage ecost horizon impl : ℚ) : Inputs :=
  [("scenario_name", Value.str name),
   ("monthly_invoice_volume", Value.num vol),
   ("num_ap_staff", Value.num staff),
   ("hourly_wage", Value.num wage),
   ("error_cost", Value.num ecost),
   ("time_horizon_months", Value.num horizon),
   ("one_time_implementation_cost", Value.num impl)]

theorem getNum_mkInputs_vol (name : String) (vol staff wage ecost horizon impl : ℚ) :
    getNum (mkInputs name vol staff wage ecost horizon impl)
      "monthly_invoice_volume" = Except.ok vol := rfl

theorem getNum_mkInputs_wage (name : String) (vol staff wage ecost horizon impl : ℚ) :
    getNum (mkInputs name vol staff wage ecost horizon impl)
      "hourly_wage" = Except.ok wage := rfl

theorem getNum_mkInputs_ecost (name : String) (vol staff wage ecost horizon impl : ℚ) :
    getNum (mkInputs name vol staff wage ecost horizon impl)
      "error_cost" = Except.ok ecost := rfl

theorem getNum_mkInputs_horizon (name : String) (vol staff wage ecost horizon impl : ℚ) :
    getNum (mkInputs name vol staff wage ecost horizon impl)
      "time_horizon_months" = Except.ok horizon := rfl

theorem getNum_mkInputs_impl (name : String) (vol staff wage ecost horizon impl : ℚ) :
    getNum (mkInputs name vol staff wage ecost horizon impl)
      "one_time_implementation_cost" = Except.ok impl := rfl

/-- On a fully-populated numeric inputs dict the engine follows the pure
arithmetic path of app.py lines 43-77, with the two sentinel branches. -/
theorem calculate_results_mkInputs (name : String)
    (vol staff wage ecost horizon impl : ℚ) :
    calculate_results (mkInputs name vol staff wage ecost horizon impl) =
      Except.ok
        { monthly_savings := monthly_savings vol wage ecost,
          cumulative_savings := monthly_savings vol wage ecost * horizon,
          payback_months :=
            if 0 < monthly_savings vol wage ecost then
              RVal.fin (impl / monthly_savings vol wage ecost)
            else RVal.inf,
          roi_percentage :=
            if 0 < impl then
              RVal.fin ((monthly_savings vol wage ecost * horizon - impl) /
                impl * 100)
            else RVal.inf } := by
  rw [calculate_results, calcBody, getNum_mkInputs_vol, getNum_mkInputs_wage,
    getNum_mkInputs_ecost, getNum_mkInputs_horizon, getNum_mkInputs_impl]
  by_cases hms : 0 < monthly_savings vol wage ecost
  · by_cases himpl : 0 < impl
    · simp [hms, himpl, pyDiv, hms.ne', himpl.ne', Except.map]
    · simp [hms, himpl, pyDiv, hms.ne', Except.map]
  · by_cases himpl : 0 < impl
    · simp [hms, himpl, pyDiv, himpl.ne', Except.map]
    · simp [hms, himpl, pyDiv, Except.map]

/-! ### Report data formatter (`generate_pdf`, app.py lines 84-103)

The PDF object itself is layout; the modelled output is the ordered list of
the five labeled content cells (the title cell is a heading, not a metric).
Python `format` rounds half-to-even; the model reproduces that on the exact
rational value. -/

/-- Round `a / b` (for `b > 0`) half-to-even to the nearest integer, as
Python number formatting does. -/
def roundHalfEven (a : ℤ) (b : ℕ) : ℤ :=
  let f := Int.fdiv a b
  let r2 := 2 * (a - f * b)
  if r2 < (b : ℤ) then f
  else if (b : ℤ) < r2 then f + 1
  else if f % 2 = 0 then f else f + 1

/-- Left-pad a digit string with zeros up to width `d`. -/
def padLeftZeros (s : String) (d : ℕ) : String :=
  String.mk (List.replicate (d - s.length) '0') ++ s

/-- Split a reversed digit list into groups of three. -/
def chunksOf3 : List Char → List (List Char)
  | [] => []
  | [a] => [[a]]
  | [a, b] => [[a, b]]
  | a :: b :: c :: rest => [a, b, c] :: chunksOf3 rest

/-- Insert thousands separators into a digit string, as Python `:,` does. -/
def groupDigits (s : String) : String :=
  String.intercalate "," (((chunksOf3 s.toList.reverse).map
    (fun c => String.mk c.reverse)).reverse)

/-- Python `{:.df}` fixed-point formatting of an exact rational:
`q * 10^d` rounded half-to-even, computed on the exact numerator and
denominator. -/
def formatFixed (q : ℚ) (d : ℕ) : String :=
  let n := roundHalfEven (q.num * 10 ^ d) q.den
  let sign := if n < 0 then "-" else ""
  let m := n.natAbs
  sign ++ toString (m / 10 ^ d) ++ "." ++ padLeftZeros (toString (m % 10 ^ d)) d

/-- Python `{:,.df}` fixed-point formatting with thousands separators. -/
def formatCommas (q : ℚ) (d : ℕ) : String :=
  let n := roundHalfEven (q.num * 10 ^ d) q.den
  let sign := if n < 0 then "-" else ""
  let m := n.natAbs
  sign ++ groupDigits (toString (m / 10 ^ d)) ++ "." ++
    padLeftZeros (toString (m % 10 ^ d)) d

/-- How an f-string renders a session value. -/
def valueText : Value → String
  | Value.num q => toString q
  | Value.str s => s

/-- `generate_pdf` (app.py lines 84-103), modelled as the ordered list of its
five labeled content cells.  The scenario line uses
`inputs.get('scenario_name', 'Unsaved')` — the default applies only when the
key is absent (line 91).  The ROI line subscripts
`inputs['time_horizon_months']` (line 100), which raises `KeyError` when that
key is absent; since the function only returns its bytes after all cells
succeed, the model checks the subscript up front. -/
def generate_pdf (inputs : Inputs) (results : CalcResults) :
    Except PyErr (List String) :=
  match inputs.lookup "time_horizon_months" with
  | none => Except.error PyErr.keyError
  | some horizon =>
    let scenario :=
      match inputs.lookup "scenario_name" with
      | none => "Unsaved"
      | some v => valueText v
    let payback_text :=
      match results.payback_months with
      | RVal.fin q => formatFixed q 1 ++ " months"
      | RVal.inf => "N/A"
    let roi_text :=
      match results.roi_percentage with
      | RVal.fin q => formatFixed q 1 ++ "%"
      | RVal.inf => "N/A"
    Except.ok
      ["Scenario: " ++ scenario,
       "Monthly Savings: $" ++ formatCommas results.monthly_savings 2,
       "Payback Period: " ++ payback_text,
       "Total ROI (" ++ valueText horizon ++ " months): " ++ roi_text,
       "Cumulative Savings: $" ++ formatCommas results.cumulative_savings 2]

/-! ### Scenario store

The store is the `scenarios` SQLite table (app.py lines 27-38) driven by the
inline SQL of the save handler (lines 141-150), the scenario list query
(line 114) and `load_scenario` (lines 117-123).  SQLite row-id assignment and
unordered-SELECT row order are library behavior outside src/, so the store is
modelled from the spec on top of the source's SQL. -/

/-- A row of the `scenarios` table minus its id: the seven `ScenarioInput`
fields (app.py lines 28-37). -/
structure ScenarioRow where
  scenario_name : String
  monthly_invoice_volume : ℚ
  num_ap_staff : ℚ
  hourly_wage : ℚ
  error_cost : ℚ
  time_horizon_months : ℚ
  one_time_implementation_cost : ℚ
deriving DecidableEq, Repr

/-- The persistent state of the `scenarios` table: rows with their ids, in
insertion order. -/
structure DB where
  rows : List (Nat × ScenarioRow)
deriving DecidableEq, Repr

/-- Failure of the store's create operation. -/
inductive PersistenceError where
  | emptyName
deriving DecidableEq, Repr

/-- Modelled from the spec: SQLite assigns an `INTEGER PRIMARY KEY` omitted
from an INSERT as one more than the largest id in the table. -/
def nextId (db : DB) : ℕ := (db.rows.map Prod.fst).foldr max 0 + 1

/-- Modelled from the spec: the store's `create` — the INSERT of the save
handler (app.py lines 143-147) guarded by its empty-name rejection
(lines 142 and 149-150); per the spec contract it fails with
`PersistenceError` on an empty name and otherwise appends the row under a
fresh id. -/
def create (db : DB) (r : ScenarioRow) : Except PersistenceError (DB × ℕ) :=
  if r.scenario_name = "" then Except.error PersistenceError.emptyName
  else Except.ok (⟨db.rows ++ [(nextId db, r)]⟩, nextId db)

/-- Modelled from the spec: `SELECT * FROM scenarios WHERE id = ?` with
`fetchone` (app.py line 120), dropping the id column to yield the seven
input fields. -/
def fetch (db : DB) (i : ℕ) : Option ScenarioRow :=
  (db.rows.find? (fun p => p.fst == i)).map Prod.snd

/-- Modelled from the spec: `SELECT id, scenario_name FROM scenarios`
(app.py line 114); an unordered SELECT over this table returns rows in rowid
(creation) order. -/
def listScenarios (db : DB) : List (ℕ × String) :=
  db.rows.map (fun p => (p.fst, p.snd.scenario_name))

theorem le_foldr_max (l : List ℕ) (x : ℕ) (hx : x ∈ l) :
    x ≤ l.foldr max 0 := by
  induction l with
  | nil => cases hx
  | cons a t ih =>
    rcases List.mem_cons.mp hx with h | h
    · subst h; exact le_max_left _ _
    · exact le_trans (ih h) (le_max_right _ _)

theorem id_lt_nextId (db : DB) (p : ℕ × ScenarioRow) (hp : p ∈ db.rows) :
    p.fst < nextId db :=
  Nat.lt_succ_of_le (le_foldr_max _ _ (List.mem_map_of_mem Prod.fst hp))

theorem find?_append_of_forall_false {α : Type} (p : α → Bool)
    (l1 l2 : List α) (h : ∀ x ∈ l1, p x = false) :
    (l1 ++ l2).find? p = l2.find? p := by
  induction l1 with
  | nil => rfl
  | cons a t ih =>
    rw [List.cons_append, List.find?_cons_of_neg, ih]
    · exact fun x hx => h x (List.mem_cons_of_mem a hx)
    · simp [h a (List.mem_cons_self a t)]

/-! ### Helper lemmas for the concrete scenario -/

/-- The constants of app.py lines 13-17, for unfolding. -/
theorem constants_defs :
    AUTOMATED_COST_PER_INVOICE = 1/5 ∧ ERROR_RATE_AUTO = 1/1000 ∧
    MIN_ROI_BOOST_FACTOR = 11/10 ∧ TIME_SAVED_PER_INVOICE_MINUTES = 7073/1000 ∧
    MANUAL_ERROR_RATE_PERCENT = 2/5 := by
  refine ⟨?_, ?_, ?_, ?_, ?_⟩ <;>
    norm_num [AUTOMATED_COST_PER_INVOICE, ERROR_RATE_AUTO, MIN_ROI_BOOST_FACTOR,
      TIME_SAVED_PER_INVOICE_MINUTES, MANUAL_ERROR_RATE_PERCENT]

theorem monthly_savings_concrete : monthly_savings 2000 30 100 = 80003/10 := by
  norm_num [monthly_savings, labor_savings, error_savings, auto_cost,
    AUTOMATED_COST_PER_INVOICE, ERROR_RATE_AUTO, MIN_ROI_BOOST_FACTOR,
    TIME_SAVED_PER_INVOICE_MINUTES, MANUAL_ERROR_RATE_PERCENT]

theorem monthly_savings_concrete_pos : 0 < monthly_savings 2000 30 100 := by
  rw [monthly_savings_concrete]; norm_num

/-- The engine's result on the concrete scenario of §8 of the spec. -/
def resultC6 : CalcResults :=
  { monthly_savings := 8000.3, cumulative_savings := 288010.8,
    payback_months := RVal.fin (500000 / 80003),
    roi_percentage := RVal.fin (2380108 / 5000) }

theorem engine_concrete :
    calculate_results (mkInputs "Q4 Pilot" 2000 3 30 100 36 50000) =
      Except.ok resultC6 := by
  rw [calculate_results_mkInputs, monthly_savings_concrete]
  simp only [resultC6]
  norm_num

/-! ### Claim theorems: calculation engine -/

/-- C2: on the concrete scenario (volume 2000, staff 3, wage 30, error cost
100, horizon 36, implementation cost 50000) the engine's intermediate values
are labor_savings = 7073, error_savings = 600, auto_cost = 400, and its
result is monthly_savings = 8000.3, cumulative_savings = 288010.8,
payback_months = 500000/80003 (≈ 6.25 within 0.001) and
roi_percentage = 2380108/5000 (≈ 476.02 within 0.01). -/
theorem c2_concrete_scenario :
    labor_savings 2000 30 = 7073 ∧
    error_savings 2000 100 = 600 ∧
    auto_cost 2000 = 400 ∧
    calculate_results (mkInputs "Q4 Pilot" 2000 3 30 100 36 50000) =
      Except.ok { monthly_savings := 8000.3, cumulative_savings := 288010.8,
                  payback_months := RVal.fin (500000 / 80003),
                  roi_percentage := RVal.fin (2380108 / 5000) } ∧
    |(500000 : ℚ) / 80003 - 6.25| < 1/1000 ∧
    |(2380108 : ℚ) / 5000 - 476.02| < 1/100 := by
  refine ⟨?_, ?_, ?_, engine_concrete, ?_, ?_⟩
  · norm_num [labor_savings, TIME_SAVED_PER_INVOICE_MINUTES]
  · norm_num [error_savings, MANUAL_ERROR_RATE_PERCENT, ERROR_RATE_AUTO]
  · norm_num [auto_cost, AUTOMATED_COST_PER_INVOICE]
  · rw [abs_sub_lt_iff]; constructor <;> norm_num
  · rw [abs_sub_lt_iff]; constructor <;> norm_num

/-- C4: whenever `one_time_implementation_cost` is 0, the engine returns
`roi_percentage = +Infinity`, for every numeric input (hence regardless of
the sign of the net savings). -/
theorem c4_zero_cost_roi_inf (name : String) (vol staff wage ecost horizon : ℚ) :
    Except.map CalcResults.roi_percentage
      (calculate_results (mkInputs name vol staff wage ecost horizon 0)) =
      Except.ok RVal.inf := by
  rw [calculate_results_mkInputs]
  simp [Except.map]

/-- C5: the engine returns `payback_months = +Infinity` when the derived
monthly savings are ≤ 0, and `one_time_implementation_cost / monthly_savings`
when they are > 0. -/
theorem c5_payback_sentinel (name : String)
    (vol staff wage ecost horizon impl : ℚ) :
    (monthly_savings vol wage ecost ≤ 0 →
      Except.map CalcResults.payback_months
        (calculate_results (mkInputs name vol staff wage ecost horizon impl)) =
        Except.ok RVal.inf) ∧
    (0 < monthly_savings vol wage ecost →
      Except.map CalcResults.payback_months
        (calculate_results (mkInputs name vol staff wage ecost horizon impl)) =
        Except.ok (RVal.fin (impl / monthly_savings vol wage ecost))) := by
  rw [calculate_results_mkInputs]
  constructor
  · intro h
    simp [Except.map, not_lt.mpr h]
  · intro h
    simp [Except.map, h]

/-- Witness for C5 at the concrete scenario: its monthly savings are
positive and the payback is the implementation cost divided by them. -/
theorem c5_payback_sentinel_witness :
    0 < monthly_savings 2000 30 100 ∧
    Except.map CalcResults.payback_months
      (calculate_results (mkInputs "Q4 Pilot" 2000 3 30 100 36 50000)) =
      Except.ok (RVal.fin (50000 / monthly_savings 2000 30 100)) :=
  ⟨monthly_savings_concrete_pos,
   (c5_payback_sentinel "Q4 Pilot" 2000 3 30 100 36 50000).2
     monthly_savings_concrete_pos⟩

/-- C6: for every numeric input the engine's result satisfies
`cumulative_savings = monthly_savings * time_horizon_months` exactly. -/
theorem c6_cumulative_consistency (name : String)
    (vol staff wage ecost horizon impl : ℚ) (r : CalcResults)
    (h : calculate_results (mkInputs name vol staff wage ecost horizon impl) =
      Except.ok r) :
    r.cumulative_savings = r.monthly_savings * horizon := by
  rw [calculate_results_mkInputs] at h
  cases h
  rfl

/-- Witness for C6 at the concrete scenario. -/
theorem c6_cumulative_consistency_witness :
    calculate_results (mkInputs "Q4 Pilot" 2000 3 30 100 36 50000) =
      Except.ok resultC6 ∧
    resultC6.cumulative_savings = resultC6.monthly_savings * 36 :=
  ⟨engine_concrete, c6_cumulative_consistency "Q4 Pilot" 2000 3 30 100 36 50000
    resultC6 engine_concrete⟩

/-- The report formatter on a fully-populated inputs dict, with the five
cells written out (the match expressions are the two `!= float('inf')`
switches of app.py lines 95-99). -/
theorem generate_pdf_mkInputs (name : String)
    (vol staff wage ecost horizon impl : ℚ) (results : CalcResults) :
    generate_pdf (mkInputs name vol staff wage ecost horizon impl) results =
      Except.ok
        ["Scenario: " ++ name,
         "Monthly Savings: $" ++ formatCommas results.monthly_savings 2,
         "Payback Period: " ++
           (match results.payback_months with
            | RVal.fin q => formatFixed q 1 ++ " months"
            | RVal.inf => "N/A"),
         "Total ROI (" ++ toString horizon ++ " months): " ++
           (match results.roi_percentage with
            | RVal.fin q => formatFixed q 1 ++ "%"
            | RVal.inf => "N/A"),
         "Cumulative Savings: $" ++ formatCommas results.cumulative_savings 2] :=
  rfl

theorem append_append_right (x a b c : String) (h : a ++ b = c) :
    x ++ a ++ b = x ++ c := by rw [String.append_assoc, h]

/-- C10: with zero implementation cost and positive monthly savings the
engine returns the finite `payback_months = 0` — rendered "0.0 months" —
while `roi_percentage` is the `+Infinity` sentinel rendered "N/A". -/
theorem c10_zero_cost_finite_payback (name : String)
    (vol staff wage ecost horizon : ℚ)
    (hms : 0 < monthly_savings vol wage ecost) :
    ∃ r, calculate_results (mkInputs name vol staff wage ecost horizon 0) =
        Except.ok r ∧
      r.payback_months = RVal.fin 0 ∧ r.roi_percentage = RVal.inf ∧
      ∃ l, generate_pdf (mkInputs name vol staff wage ecost horizon 0) r =
          Except.ok l ∧
        l[2]? = some "Payback Period: 0.0 months" ∧
        l[3]? = some ("Total ROI (" ++ toString horizon ++ " months): N/A") := by
  rw [calculate_results_mkInputs]
  refine ⟨{ monthly_savings := monthly_savings vol wage ecost,
            cumulative_savings := monthly_savings vol wage ecost * horizon,
            payback_months := RVal.fin 0,
            roi_percentage := RVal.inf }, ?_, rfl, rfl, ?_⟩
  · rw [if_pos hms, zero_div, if_neg (lt_irrefl (0 : ℚ))]
  · rw [generate_pdf_mkInputs]
    refine ⟨_, rfl, rfl, ?_⟩
    exact congrArg some (append_append_right _ " months): " "N/A"
      " months): N/A" rfl)

/-- Witness for C10 at the concrete scenario with zero implementation
cost. -/
theorem c10_zero_cost_finite_payback_witness :
    0 < monthly_savings 2000 30 100 ∧
    ∃ r, calculate_results (mkInputs "Q4 Pilot" 2000 3 30 100 36 0) =
        Except.ok r ∧
      r.payback_months = RVal.fin 0 ∧ r.roi_percentage = RVal.inf ∧
      ∃ l, generate_pdf (mkInputs "Q4 Pilot" 2000 3 30 100 36 0) r =
          Except.ok l ∧
        l[2]? = some "Payback Period: 0.0 months" ∧
        l[3]? = some ("Total ROI (" ++ toString (36 : ℚ) ++ " months): N/A") :=
  ⟨monthly_savings_concrete_pos,
   c10_zero_cost_finite_payback "Q4 Pilot" 2000 3 30 100 36
     monthly_savings_concrete_pos⟩

/-! ### Claim C1: fallback behavior on malformed input -/

/-- The five fields that `calculate_results` reads (app.py lines 44-69);
`scenario_name` and `num_ap_staff` are never touched by it. -/
def numericFields : List String :=
  ["monthly_invoice_volume", "hourly_wage", "error_cost",
   "time_horizon_months", "one_time_implementation_cost"]

/-- An inputs dict with every field of the sidebar except `hourly_wage`. -/
def inputsMissingWage : Inputs :=
  [("scenario_name", Value.str "Q4 Pilot"),
   ("monthly_invoice_volume", Value.num 2000),
   ("num_ap_staff", Value.num 3),
   ("error_cost", Value.num 100),
   ("time_horizon_months", Value.num 36),
   ("one_time_implementation_cost", Value.num 50000)]

/-- C1 counterexample: on an inputs dict missing `hourly_wage` the engine
raises `KeyError` (the `except` clause catches only `ZeroDivisionError` and
`TypeError`), so it neither "does not raise" nor returns the fallback. -/
theorem c1_counterexample_missing_field :
    calculate_results inputsMissingWage = Except.error PyErr.keyError ∧
    calculate_results inputsMissingWage ≠ Except.ok fallbackResult := by
  refine ⟨rfl, ?_⟩
  rw [show calculate_results inputsMissingWage = Except.error PyErr.keyError
    from rfl]
  simp

/-- C1 (amended): if the five fields the engine reads are all present and at
least one of them holds a non-numeric (string) value, `calculate_results`
returns exactly the fallback result; a missing field instead raises
`KeyError`. -/
theorem c1_fallback_on_string_field (inputs : Inputs)
    (hpres : ∀ f ∈ numericFields, (inputs.lookup f).isSome)
    (hstr : ∃ f ∈ numericFields, ∃ s, inputs.lookup f = some (Value.str s)) :
    calculate_results inputs = Except.ok fallbackResult := by
  obtain ⟨v1, e1⟩ := Option.isSome_iff_exists.mp
    (hpres "monthly_invoice_volume" (by simp [numericFields]))
  cases v1 with
  | str s => simp [calculate_results, calcBody, getNum, e1]
  | num q1 =>
    obtain ⟨v2, e2⟩ := Option.isSome_iff_exists.mp
      (hpres "hourly_wage" (by simp [numericFields]))
    cases v2 with
    | str s => simp [calculate_results, calcBody, getNum, e1, e2]
    | num q2 =>
      obtain ⟨v3, e3⟩ := Option.isSome_iff_exists.mp
        (hpres "error_cost" (by simp [numericFields]))
      cases v3 with
      | str s => simp [calculate_results, calcBody, getNum, e1, e2, e3]
      | num q3 =>
        obtain ⟨v4, e4⟩ := Option.isSome_iff_exists.mp
          (hpres "time_horizon_months" (by simp [numericFields]))
        cases v4 with
        | str s => simp [calculate_results, calcBody, getNum, e1, e2, e3, e4]
        | num q4 =>
          obtain ⟨v5, e5⟩ := Option.isSome_iff_exists.mp
            (hpres "one_time_implementation_cost" (by simp [numericFields]))
          cases v5 with
          | str s =>
            simp [calculate_results, calcBody, getNum, e1, e2, e3, e4, e5]
          | num q5 =>
            exfalso
            rcases hstr with ⟨f, hf, s, hs⟩
            simp only [numericFields, List.mem_cons, List.not_mem_nil,
              or_false] at hf
            rcases hf with rfl | rfl | rfl | rfl | rfl <;> simp_all

/-- An inputs dict whose `hourly_wage` is a string. -/
def inputsStringWage : Inputs :=
  [("scenario_name", Value.str "Q4 Pilot"),
   ("monthly_invoice_volume", Value.num 2000),
   ("num_ap_staff", Value.num 3),
   ("hourly_wage", Value.str "thirty"),
   ("error_cost", Value.num 100),
   ("time_horizon_months", Value.num 36),
   ("one_time_implementation_cost", Value.num 50000)]

/-- Witness for the amended C1: a dict whose `hourly_wage` is the string
"thirty" yields the fallback result. -/
theorem c1_fallback_on_string_field_witness :
    (∀ f ∈ numericFields, (inputsStringWage.lookup f).isSome) ∧
    (∃ f ∈ numericFields, ∃ s,
      inputsStringWage.lookup f = some (Value.str s)) ∧
    calculate_results inputsStringWage = Except.ok fallbackResult :=
  ⟨by decide, ⟨"hourly_wage", by decide, "thirty", by decide⟩,
   c1_fallback_on_string_field inputsStringWage (by decide)
     ⟨"hourly_wage", by decide, "thirty", by decide⟩⟩

/-! ### Claim C3: report entries -/

/-- C3 counterexample: with `scenario_name` present but empty, the first
report entry is "Scenario: " — the name rendered as itself — not the
placeholder, because `inputs.get('scenario_name', 'Unsaved')` only falls
back when the key is absent. -/
theorem c3_counterexample_empty_name :
    generate_pdf (mkInputs "" 2000 3 30 100 36 50000) fallbackResult =
      Except.ok ["Scenario: ", "Monthly Savings: $0.00", "Payback Period: N/A",
                 "Total ROI (36 months): 0.0%", "Cumulative Savings: $0.00"] ∧
    ("Scenario: " : String) ≠ "Scenario: Unsaved" := by
  refine ⟨rfl, by decide⟩

/-- C3 (amended): whenever `time_horizon_months` is present in the inputs
dict, the report formatter produces exactly five labeled entries, in order:
scenario name — with the placeholder "Unsaved" exactly when the
`scenario_name` key is absent, the name itself (even if empty) otherwise —,
monthly savings (currency, 2 decimals), payback period (one decimal plus
" months", or "N/A" for the Infinity sentinel), total ROI (one decimal plus
"%", or "N/A" for Infinity), and cumulative savings (currency, 2
decimals). -/
theorem c3_report_entries (inputs : Inputs) (results : CalcResults)
    (v : Value) (hv : inputs.lookup "time_horizon_months" = some v) :
    ∃ l, generate_pdf inputs results = Except.ok l ∧ l.length = 5 ∧
      (inputs.lookup "scenario_name" = none →
        l[0]? = some "Scenario: Unsaved") ∧
      (∀ s, inputs.lookup "scenario_name" = some (Value.str s) →
        l[0]? = some ("Scenario: " ++ s)) ∧
      l[1]? = some ("Monthly Savings: $" ++
        formatCommas results.monthly_savings 2) ∧
      (results.payback_months = RVal.inf →
        l[2]? = some "Payback Period: N/A") ∧
      (∀ q, results.payback_months = RVal.fin q →
        l[2]? = some ("Payback Period: " ++ (formatFixed q 1 ++ " months"))) ∧
      (results.roi_percentage = RVal.inf →
        l[3]? = some ("Total ROI (" ++ valueText v ++ " months): " ++ "N/A")) ∧
      (∀ q, results.roi_percentage = RVal.fin q →
        l[3]? = some ("Total ROI (" ++ valueText v ++ " months): " ++
          (formatFixed q 1 ++ "%"))) ∧
      l[4]? = some ("Cumulative Savings: $" ++
        formatCommas results.cumulative_savings 2) := by
  simp only [generate_pdf, hv]
  refine ⟨_, rfl, rfl, ?_, ?_, rfl, ?_, ?_, ?_, ?_, rfl⟩
  · intro h; rw [h]; rfl
  · intro s h; rw [h]; rfl
  · intro h; rw [h]; rfl
  · intro q h; rw [h]; rfl
  · intro h; rw [h]; rfl
  · intro q h; rw [h]; rfl

/-- Witness for the amended C3 on the concrete scenario inputs and the
fallback result. -/
theorem c3_report_entries_witness :
    ∃ l, generate_pdf (mkInputs "Q4 Pilot" 2000 3 30 100 36 50000)
        fallbackResult = Except.ok l ∧ l.length = 5 ∧
      ((mkInputs "Q4 Pilot" 2000 3 30 100 36 50000).lookup "scenario_name" =
          none → l[0]? = some "Scenario: Unsaved") ∧
      (∀ s, (mkInputs "Q4 Pilot" 2000 3 30 100 36 50000).lookup
          "scenario_name" = some (Value.str s) →
        l[0]? = some ("Scenario: " ++ s)) ∧
      l[1]? = some ("Monthly Savings: $" ++
        formatCommas fallbackResult.monthly_savings 2) ∧
      (fallbackResult.payback_months = RVal.inf →
        l[2]? = some "Payback Period: N/A") ∧
      (∀ q, fallbackResult.payback_months = RVal.fin q →
        l[2]? = some ("Payback Period: " ++ (formatFixed q 1 ++ " months"))) ∧
      (fallbackResult.roi_percentage = RVal.inf →
        l[3]? = some ("Total ROI (" ++ valueText (Value.num 36) ++
          " months): " ++ "N/A")) ∧
      (∀ q, fallbackResult.roi_percentage = RVal.fin q →
        l[3]? = some ("Total ROI (" ++ valueText (Value.num 36) ++
          " months): " ++ (formatFixed q 1 ++ "%"))) ∧
      l[4]? = some ("Cumulative Savings: $" ++
        formatCommas fallbackResult.cumulative_savings 2) :=
  c3_report_entries (mkInputs "Q4 Pilot" 2000 3 30 100 36 50000)
    fallbackResult (Value.num 36) rfl

/-! ### Claims C7-C9: scenario store -/

/-- C7: fetching by the id returned from create yields a record equal to the
created input in all seven fields. -/
theorem c7_store_round_trip (db : DB) (r : ScenarioRow)
    (h : r.scenario_name ≠ "") (db2 : DB) (i : ℕ)
    (hc : create db r = Except.ok (db2, i)) :
    fetch db2 i = some r := by
  rw [create, if_neg h] at hc
  simp only [Except.ok.injEq, Prod.mk.injEq] at hc
  obtain ⟨hdb, hi⟩ := hc
  subst hdb; subst hi
  rw [fetch]
  rw [find?_append_of_forall_false _ _ _ ?_]
  · simp [List.find?]
  · intro x hx
    have hlt := id_lt_nextId db x hx
    simp [Nat.ne_of_lt hlt]

/-- The empty scenarios table. -/
def dbEmpty : DB := { rows := [] }

/-- A concrete scenario row with a non-empty name. -/
def rowA : ScenarioRow :=
  { scenario_name := "Q4 Pilot", monthly_invoice_volume := 2000,
    num_ap_staff := 3, hourly_wage := 30, error_cost := 100,
    time_horizon_months := 36, one_time_implementation_cost := 50000 }

/-- A second concrete scenario row with a non-empty name. -/
def rowB : ScenarioRow :=
  { scenario_name := "Aggressive", monthly_invoice_volume := 5000,
    num_ap_staff := 4, hourly_wage := 35, error_cost := 120,
    time_horizon_months := 24, one_time_implementation_cost := 80000 }

/-- The table after creating `rowA` in the empty table. -/
def dbA : DB := { rows := [(1, rowA)] }

/-- Witness for C7: create `rowA` in the empty table, fetch it back by the
returned id. -/
theorem c7_store_round_trip_witness :
    rowA.scenario_name ≠ "" ∧
    create dbEmpty rowA = Except.ok (dbA, 1) ∧
    fetch dbA 1 = some rowA :=
  ⟨by decide, rfl, c7_store_round_trip dbEmpty rowA (by decide) dbA 1 rfl⟩

/-- C8: after creating A and then B, the scenario list is the old list with
(A's id, A's name) and then (B's id, B's name) appended — A before B, no
filtering. -/
theorem c8_list_creation_order (db db1 db2 : DB) (a b : ScenarioRow)
    (ia ib : ℕ)
    (h1 : create db a = Except.ok (db1, ia))
    (h2 : create db1 b = Except.ok (db2, ib)) :
    listScenarios db2 =
      listScenarios db ++ [(ia, a.scenario_name), (ib, b.scenario_name)] := by
  rw [create] at h1
  by_cases ha : a.scenario_name = ""
  · rw [if_pos ha] at h1; simp at h1
  · rw [if_neg ha] at h1
    simp only [Except.ok.injEq, Prod.mk.injEq] at h1
    obtain ⟨hdb1, hia⟩ := h1
    subst hdb1; subst hia
    rw [create] at h2
    by_cases hb : b.scenario_name = ""
    · rw [if_pos hb] at h2; simp at h2
    · rw [if_neg hb] at h2
      simp only [Except.ok.injEq, Prod.mk.injEq] at h2
      obtain ⟨hdb2, hib⟩ := h2
      subst hdb2; subst hib
      simp [listScenarios]

/-- The table after creating `rowA` and then `rowB`. -/
def dbAB : DB := { rows := [(1, rowA), (2, rowB)] }

/-- Witness for C8: two concrete creations in the empty table list A first,
then B. -/
theorem c8_list_creation_order_witness :
    create dbEmpty rowA = Except.ok (dbA, 1) ∧
    create dbA rowB = Except.ok (dbAB, 2) ∧
    listScenarios dbAB =
      listScenarios dbEmpty ++
        [(1, rowA.scenario_name), (2, rowB.scenario_name)] :=
  ⟨rfl, rfl, c8_list_creation_order dbEmpty dbA dbAB rowA rowB 1 2 rfl rfl⟩

/-- C9: create appends the record under an id strictly larger than every
existing id (hence unique and monotonically increasing) without touching
existing rows, and fails with `PersistenceError` — persisting nothing — when
the scenario name is empty. -/
theorem c9_create_appends (db : DB) (r : ScenarioRow) :
    (r.scenario_name = "" →
      create db r = Except.error PersistenceError.emptyName) ∧
    (r.scenario_name ≠ "" →
      create db r =
        Except.ok (⟨db.rows ++ [(nextId db, r)]⟩, nextId db) ∧
      ∀ p ∈ db.rows, p.fst < nextId db) := by
  constructor
  · intro h; rw [create, if_pos h]
  · intro h
    exact ⟨by rw [create, if_neg h], fun p hp => id_lt_nextId db p hp⟩

/-- A concrete row with an empty scenario name. -/
def rowEmpty : ScenarioRow :=
  { scenario_name := "", monthly_invoice_volume := 2000,
    num_ap_staff := 3, hourly_wage := 30, error_cost := 100,
    time_horizon_months := 36, one_time_implementation_cost := 50000 }

/-- Witness for C9: the empty-name row is rejected, and `rowA` is appended
to the singleton table under the fresh id 2. -/
theorem c9_create_appends_witness :
    (rowEmpty.scenario_name = "" ∧
      create dbA rowEmpty = Except.error PersistenceError.emptyName) ∧
    (rowB.scenario_name ≠ "" ∧
      create dbA rowB =
        Except.ok (⟨dbA.rows ++ [(nextId dbA, rowB)]⟩, nextId dbA) ∧
      ∀ p ∈ dbA.rows, p.fst < nextId dbA) :=
  ⟨⟨rfl, (c9_create_appends dbA rowEmpty).1 rfl⟩,
   ⟨by decide, (c9_create_appends dbA rowB).2 (by decide)⟩⟩

end ROICalc
